import Mathlib

/-!
Verification of the tcees-validator-service repository.

The embedding below follows the two source files:
* `tcees_validator.py` — status parsing (`_status_from_cell_html`,
  `_statuses_signature`, `_apply_statuses_to_results`), the status-polling
  loop inside `validate_pdf_with_tcees`, the score computation, the
  error-path records, and `validate_multiple_pdfs`;
* `tcees_service.py` — `_auth_ok` and the `POST /validate` route checks.

Python strings are modelled as Lean `String`; `None`-able strings as
`Option String`; the three-valued cell statuses (`True`/`False`/`None`)
as `Option Bool`.  The browser/Selenium environment is abstracted as
explicit inputs (the statuses extracted at each poll, the page text, the
facts about the file on disk).
-/

/-- Three-valued status of one check cell: Python `True`/`False`/`None`. -/
abbrev Status := Option Bool

/-- Python `str.lower()` restricted to ASCII and the Latin-1 letter block
(U+00C0–U+00DE except `×`), which covers every character occurring in the
source's marker strings. -/
def py_char_lower (c : Char) : Char :=
  let n := c.toNat
  if (65 ≤ n ∧ n ≤ 90) ∨ (192 ≤ n ∧ n ≤ 222 ∧ n ≠ 215) then Char.ofNat (n + 32) else c

def py_lower (s : String) : String :=
  String.mk (s.toList.map py_char_lower)

/-- Python `str.upper()` restricted to ASCII and the Latin-1 letter block
(U+00E0–U+00FE except `÷`; `ß` and `ÿ` left unchanged).  The network-error
marker substrings are all ASCII. -/
def py_char_upper (c : Char) : Char :=
  let n := c.toNat
  if (97 ≤ n ∧ n ≤ 122) ∨ (224 ≤ n ∧ n ≤ 254 ∧ n ≠ 247) then Char.ofNat (n - 32) else c

def py_upper (s : String) : String :=
  String.mk (s.toList.map py_char_upper)

/-- Substring occurrence on character lists: `needle` occurs contiguously in
`haystack`. -/
def chars_contain (needle : List Char) : List Char → Bool
  | [] => needle.isEmpty
  | c :: rest => needle.isPrefixOf (c :: rest) || chars_contain needle rest

/-- Python `needle in haystack` on strings. -/
def str_contains (haystack needle : String) : Bool :=
  chars_contain needle.toList haystack.toList

/-- `success_markers` tuple of `_status_from_cell_html`. -/
def success_markers : List String :=
  ["fa-check", "text-success", "title=\"ok\""]

/-- `failure_markers` tuple of `_status_from_cell_html`. -/
def failure_markers : List String :=
  ["fa-close", "fa-times", "text-danger", "nao assinado", "não assinado",
   "invalido", "inválido", "erro"]

/-- `_status_from_cell_html(cell_html)`: lowercase the cell HTML
(`cell_html or ''` guards `None`), look for success and failure markers,
and classify. -/
def status_from_cell_html (cell_html : Option String) : Status :=
  let html := py_lower (cell_html.getD "")
  let is_success := success_markers.any (fun marker => str_contains html marker)
  let is_failure := failure_markers.any (fun marker => str_contains html marker)
  if is_failure && !is_success then some false
  else if is_success && !is_failure then some true
  else if is_success && is_failure then some false
  else none

/-- Character used by `_statuses_signature` for one status. -/
def status_char : Status → Char
  | some true => '1'
  | some false => '0'
  | none => '?'

/-- `_statuses_signature(statuses)`; for a list, `if not statuses` is the
empty-list test and the join over the empty list is `''` either way. -/
def statuses_signature (statuses : List Status) : String :=
  String.mk (statuses.map status_char)

/-- The flat result record built in `validate_pdf_with_tcees`. -/
structure Results where
  nome_arquivo : String
  tamanho_bytes : Nat
  data_validacao : String
  extensao_valida : Bool
  sem_senha : Bool
  tamanho_arquivo_ok : Bool
  tamanho_pagina_ok : Bool
  assinado : Bool
  numero_assinaturas : Nat
  autenticidade_ok : Bool
  integridade_ok : Bool
  pesquisavel : Bool
  resultado_final : String
  pontuacao : Nat
  titular_certificado : String
  emissor_certificado : String
  validade_certificado : String
  mensagem_erro : String
deriving DecidableEq

/-- The `results` dict as first assigned in `validate_pdf_with_tcees`. -/
def init_results (nome : String) (tamanho : Nat) (data : String) : Results :=
  { nome_arquivo := nome
    tamanho_bytes := tamanho
    data_validacao := data
    extensao_valida := false
    sem_senha := false
    tamanho_arquivo_ok := false
    tamanho_pagina_ok := false
    assinado := false
    numero_assinaturas := 0
    autenticidade_ok := false
    integridade_ok := false
    pesquisavel := false
    resultado_final := "ERRO"
    pontuacao := 0
    titular_certificado := ""
    emissor_certificado := ""
    validade_certificado := ""
    mensagem_erro := "" }

/-- Python `status is True` for a three-valued status. -/
def status_is_true : Status → Bool
  | some true => true
  | _ => false

/-- `_apply_statuses_to_results(results, statuses, page_text)`.  The Python
function mutates the dict and returns a bool; here it returns the flag and
the updated record.  `not statuses or len(statuses) < 8` rejects `None`,
the empty list and short lists. -/
def apply_statuses_to_results (results : Results) (statuses : Option (List Status))
    (page_text : String) : Bool × Results :=
  match statuses with
  | none => (false, results)
  | some sts =>
    if sts.length < 8 then (false, results)
    else
      let r1 := { results with
        extensao_valida := status_is_true (sts.getD 0 none)
        sem_senha := status_is_true (sts.getD 1 none)
        tamanho_arquivo_ok := status_is_true (sts.getD 2 none)
        tamanho_pagina_ok := status_is_true (sts.getD 3 none)
        assinado := status_is_true (sts.getD 4 none)
        numero_assinaturas := if status_is_true (sts.getD 4 none) then 1 else 0
        autenticidade_ok := status_is_true (sts.getD 5 none)
        integridade_ok := status_is_true (sts.getD 5 none)
        pesquisavel := status_is_true (sts.getD 6 none) }
      let r2 := { r1 with resultado_final :=
        (match sts.getD 7 none with
        | some true => "VALIDADO"
        | some false => "NÃO VALIDADO"
        | none =>
          if r1.extensao_valida && r1.sem_senha && r1.tamanho_arquivo_ok &&
             r1.tamanho_pagina_ok && r1.assinado && r1.autenticidade_ok &&
             r1.pesquisavel
          then "VALIDADO" else "NÃO VALIDADO") }
      let lower_text := py_lower page_text
      let r3 :=
        if (str_contains lower_text "nao assinado" ||
            str_contains lower_text "não assinado") && !r2.assinado
        then { r2 with mensagem_erro := "Arquivo não assinado" }
        else r2
      (true, r3)

/-- `campos_ok`: the sum of the seven base check booleans. -/
def campos_ok (r : Results) : Nat :=
  r.extensao_valida.toNat + r.sem_senha.toNat + r.tamanho_arquivo_ok.toNat +
  r.tamanho_pagina_ok.toNat + r.assinado.toNat + r.autenticidade_ok.toNat +
  r.pesquisavel.toNat

/-- `int((campos_ok / 7) * 100)`.  Python evaluates the division in
binary floating point and `int` truncates toward zero; for every reachable
argument (`0 ≤ campos_ok ≤ 7`) that truncation coincides with the exact
value `⌊n * 100 / 7⌋`: both yield 0, 14, 28, 42, 57, 71, 85, 100. -/
def pontuacao_of (n : Nat) : Nat :=
  n * 100 / 7

/-- Tail of `validate_pdf_with_tcees` after the polling loop: build the
initial record, apply the parsed statuses, fall back when parsing failed
(`ext_is_pdf` models `os.path.splitext(pdf_path)[1].lower() == '.pdf'` and
`size_pos` models `os.path.getsize(pdf_path) > 0`), then derive the score. -/
def finalize_results (nome : String) (tamanho : Nat) (data : String)
    (ext_is_pdf size_pos : Bool) (statuses : Option (List Status))
    (page_text : String) : Results :=
  let r0 := init_results nome tamanho data
  let parsed := apply_statuses_to_results r0 statuses page_text
  let r1 :=
    if parsed.1 then parsed.2
    else
      { parsed.2 with
        extensao_valida := ext_is_pdf
        tamanho_arquivo_ok := size_pos
        mensagem_erro := "Não foi possível interpretar a resposta do TCEES."
        resultado_final := "ERRO" }
  { r1 with pontuacao := pontuacao_of (campos_ok r1) }

/-- The four-key record returned when `os.path.isfile(pdf_path)` is false. -/
structure NotFoundResults where
  nome_arquivo : String
  resultado_final : String
  pontuacao : Nat
  erro : String
deriving DecidableEq

def not_found_results (nome path : String) : NotFoundResults :=
  { nome_arquivo := nome, resultado_final := "ERRO", pontuacao := 0
    erro := "Arquivo não encontrado: " ++ path }

/-- `_friendly_network_error(raw_error)`; the argument models
`str(raw_error or '')`.  Returns the optional error code and the friendly
message. -/
def friendly_network_error (text : String) : Option String × String :=
  let upper := py_upper text
  if str_contains upper "ERR_TUNNEL_CONNECTION_FAILED" then
    (some "TCEES_NETWORK_BLOCKED",
     "Servidor hospedado sem acesso ao site do TCEES (ERR_TUNNEL_CONNECTION_FAILED). " ++
     "No PythonAnywhere, isso costuma ocorrer por restricao de rede/proxy/allowlist.")
  else if str_contains upper "ERR_NAME_NOT_RESOLVED" then
    (some "TCEES_DNS_ERROR",
     "Falha de DNS ao resolver o dominio do TCEES no servidor hospedado.")
  else if str_contains upper "ERR_CONNECTION_TIMED_OUT" || str_contains upper "TIMEOUT" then
    (some "TCEES_TIMEOUT",
     "Tempo limite ao conectar no site do TCEES a partir do servidor hospedado.")
  else if str_contains upper "ERR_CONNECTION_REFUSED" then
    (some "TCEES_CONNECTION_REFUSED",
     "Conexao recusada ao acessar o TCEES no servidor hospedado. " ++
     "Pode ser bloqueio de rede/firewall/allowlist.")
  else if str_contains upper "ERR_CONNECTION_CLOSED" then
    (some "TCEES_CONNECTION_CLOSED",
     "Conexao encerrada pelo destino/rede ao tentar acessar o TCEES.")
  else (none, text)

/-- The record returned by the `except` clause of `validate_pdf_with_tcees`. -/
structure ErrorResults where
  nome_arquivo : String
  extensao_valida : Bool
  sem_senha : Bool
  tamanho_arquivo_ok : Bool
  tamanho_pagina_ok : Bool
  assinado : Bool
  numero_assinaturas : Nat
  autenticidade_ok : Bool
  integridade_ok : Bool
  pesquisavel : Bool
  resultado_final : String
  pontuacao : Nat
  titular_certificado : String
  emissor_certificado : String
  validade_certificado : String
  erro : String
  erro_codigo : String
  erro_tecnico : String
deriving DecidableEq

/-- Exception path of `validate_pdf_with_tcees`; `err_text` models
`str(error)`.  `friendly_error or str(error)` and
`error_code or 'TCEES_VALIDATION_ERROR'` use Python string truthiness. -/
def error_results (nome err_text : String) : ErrorResults :=
  let fe := friendly_network_error err_text
  { nome_arquivo := nome
    extensao_valida := false
    sem_senha := false
    tamanho_arquivo_ok := false
    tamanho_pagina_ok := false
    assinado := false
    numero_assinaturas := 0
    autenticidade_ok := false
    integridade_ok := false
    pesquisavel := false
    resultado_final := "ERRO"
    pontuacao := 0
    titular_certificado := ""
    emissor_certificado := ""
    validade_certificado := ""
    erro := if fe.2 = "" then err_text else fe.2
    erro_codigo := fe.1.getD "TCEES_VALIDATION_ERROR"
    erro_tecnico := err_text }

/-- Loop state of the polling loop: `stable_count`, `last_signature`,
`parsed_statuses`. -/
structure PollState where
  stable_count : Nat
  last_signature : String
  parsed_statuses : Option (List Status)
deriving DecidableEq

def init_poll_state : PollState :=
  { stable_count := 0, last_signature := "", parsed_statuses := none }

/-- `sum(status is not None for status in statuses)`. -/
def resolved_count (sts : List Status) : Nat :=
  (sts.filter fun s => s.isSome).length

/-- One body of the polling loop, given the statuses extracted from the
driver at this poll.  Returns the updated state and whether `break` fires
(`stable_count >= 1`). -/
def poll_step (statuses : Option (List Status)) (st : PollState) : PollState × Bool :=
  match statuses with
  | none => (st, false)
  | some sts =>
    if sts.length < 8 then (st, false)
    else
      let resolved := resolved_count sts
      let signature := statuses_signature sts
      if resolved < 6 then (st, false)
      else
        let st1 :=
          if signature = st.last_signature then
            { st with stable_count := st.stable_count + 1, parsed_statuses := some sts }
          else
            { stable_count := 0
              last_signature := signature
              parsed_statuses := some sts }
        (st1, decide (1 ≤ st1.stable_count))

/-- The `while waited < max_wait` polling loop with `poll_interval = 2` as
in the source; `extract i` is the value `_extract_statuses_from_driver`
yields at the i-th poll.  `fuel` bounds the recursion: since `waited` grows
by 2 each iteration, any `fuel ≥ max_wait` makes the fuel-exhaustion branch
unreachable.  Returns the final state and the number of polls performed. -/
def poll_loop (extract : Nat → Option (List Status)) :
    Nat → Nat → Nat → PollState → PollState × Nat
  | 0, _, _, st => (st, 0)
  | fuel + 1, max_wait, waited, st =>
    if waited < max_wait then
      let step := poll_step (extract (waited / 2)) st
      if step.2 then (step.1, 1)
      else
        let rest := poll_loop extract fuel max_wait (waited + 2) step.1
        (rest.1, rest.2 + 1)
    else (st, 0)

/-- The polling loop as entered by `validate_pdf_with_tcees`:
`max_wait = 30 if quick_mode else 55`, `waited = 0`, fresh state. -/
def run_poll_loop (extract : Nat → Option (List Status)) (quick_mode : Bool) :
    PollState × Nat :=
  let max_wait := if quick_mode then 30 else 55
  poll_loop extract max_wait max_wait 0 init_poll_state

/-- `validate_multiple_pdfs(pdf_paths, max_workers)`: empty input returns
`[]` before any executor is built; otherwise the list is truncated to its
first 3 entries and `ThreadPoolExecutor(max_workers=min(max_workers,
len(pdf_paths)))` is constructed *outside* the inner `try` — CPython's
constructor raises `ValueError("max_workers must be greater than 0")` when
that bound is not positive, so the call propagates the exception instead of
returning.  With a positive bound, `executor.map` applies the validator
preserving input order.  `max_workers` is an `Int` since the Python
argument may be negative; `validator` abstracts `validate_pdf_with_tcees`. -/
def validate_multiple_pdfs {α β : Type} (validator : α → β)
    (pdf_paths : List α) (max_workers : Int) : Except String (List β) :=
  if pdf_paths.isEmpty then .ok []
  else
    let truncated := pdf_paths.take 3
    if min max_workers (truncated.length : Int) ≤ 0 then
      .error "max_workers must be greater than 0"
    else .ok (truncated.map validator)

/-- The uploaded file as the `/validate` handler sees it: its client-side
name and its size in bytes (`tell()` after seeking to the end). -/
structure UploadedFile where
  filename : String
  size_bytes : Nat
deriving DecidableEq

/-- Side effects of the accepting branch of `/validate`. -/
inductive ServiceEvent
  | save_temp
  | call_validator
  | delete_temp
deriving DecidableEq

/-- Outcome of the `/validate` handler: an error response (HTTP status and
`erro_codigo`) or acceptance with the trace of file-handling events. -/
inductive RouteResponse
  | reject (http_status : Nat) (erro_codigo : String)
  | accept (events : List ServiceEvent)
deriving DecidableEq

/-- `_auth_ok(req)`: an empty `API_SECRET` accepts everything; otherwise
the `X-API-Secret` header (absent modelled as `none`) must equal it. -/
def auth_ok (api_secret : String) (header_secret : Option String) : Bool :=
  if api_secret = "" then true else header_secret == some api_secret

/-- `size_mb = tell() / (1024 * 1024); size_mb > MAX_FILE_MB`.  Python's
float division by 2^20 is exact for every file smaller than 2^53 bytes, and
`size_bytes / 2^20 > max_mb` holds for the exact quotient iff
`size_bytes > max_mb * 2^20` over the integers, so the integer comparison
is the float comparison. -/
def file_too_large (size_bytes max_file_mb : Nat) : Bool :=
  decide (max_file_mb * (1024 * 1024) < size_bytes)

/-- The `POST /validate` decision pipeline of `tcees_service.py`.  On
acceptance the handler saves a temporary file, calls
`validate_pdf_with_tcees`, and deletes the temporary file in a `finally`
block — modelled as the event trace. -/
def validate_route (api_secret : String) (header_secret : Option String)
    (file : Option UploadedFile) (max_file_mb : Nat) : RouteResponse :=
  if !auth_ok api_secret header_secret then .reject 401 "AUTH_ERROR"
  else
    match file with
    | none => .reject 400 "NO_FILE"
    | some f =>
      if !(".pdf".toList.isSuffixOf (py_lower f.filename).toList) then
        .reject 400 "NOT_PDF"
      else if file_too_large f.size_bytes max_file_mb then
        .reject 413 "FILE_TOO_LARGE"
      else .accept [.save_temp, .call_validator, .delete_temp]

/-- A poll whose extraction the loop accepts for stability tracking:
`statuses and len(statuses) >= 8` and `resolved >= 6`. -/
def poll_qualifies (statuses : Option (List Status)) : Bool :=
  match statuses with
  | none => false
  | some sts => decide (8 ≤ sts.length) && decide (6 ≤ resolved_count sts)

/-- A fully resolved all-success status row (eight cells). -/
def ok_list : List Status := List.replicate 8 (some true)

/-- Poll sequence used to analyse the stability condition: the first and
third polls parse to the same fully resolved row, the second poll yields
nothing (e.g. the page re-rendering mid-poll). -/
def cex_extract : Nat → Option (List Status)
  | 0 => some ok_list
  | 2 => some ok_list
  | _ => none

example : status_from_cell_html (some "<i class=\"fa fa-check text-success\"></i>") = some true := by decide
example : status_from_cell_html (some "<i class=\"fa fa-check\"></i> ERRO") = some false := by decide
example : status_from_cell_html (some "<span>pendente</span>") = none := by decide
example : status_from_cell_html none = none := by decide
example : status_from_cell_html (some "NÃO ASSINADO") = some false := by decide
example : statuses_signature [some true, some false, none] = "10?" := by decide

theorem status_is_true_eq (s : Status) : status_is_true s = decide (s = some true) := by
  rcases s with _ | b
  · rfl
  · cases b <;> rfl

theorem campos_ok_le_seven (r : Results) : campos_ok r ≤ 7 := by
  have hb : ∀ b : Bool, b.toNat ≤ 1 := by decide
  have h1 := hb r.extensao_valida
  have h2 := hb r.sem_senha
  have h3 := hb r.tamanho_arquivo_ok
  have h4 := hb r.tamanho_pagina_ok
  have h5 := hb r.assinado
  have h6 := hb r.autenticidade_ok
  have h7 := hb r.pesquisavel
  unfold campos_ok
  omega

/-- Claim C1: every return of `validate_pdf_with_tcees` that goes through
the score computation (i.e. neither the exception nor the file-not-found
path) satisfies `pontuacao = int((campos_ok / 7) * 100)` where `campos_ok`
counts the `True`s among the seven check fields `extensao_valida`,
`sem_senha`, `tamanho_arquivo_ok`, `tamanho_pagina_ok`, `assinado`,
`autenticidade_ok`, `pesquisavel` of the returned record; neither
`integridade_ok` nor `resultado_final` occurs in the formula. -/
theorem pontuacao_is_seven_check_score (nome : String) (tamanho : Nat) (data : String)
    (ext_is_pdf size_pos : Bool) (statuses : Option (List Status)) (page_text : String) :
    (finalize_results nome tamanho data ext_is_pdf size_pos statuses page_text).pontuacao =
      pontuacao_of
        ((finalize_results nome tamanho data ext_is_pdf size_pos statuses page_text).extensao_valida.toNat +
         (finalize_results nome tamanho data ext_is_pdf size_pos statuses page_text).sem_senha.toNat +
         (finalize_results nome tamanho data ext_is_pdf size_pos statuses page_text).tamanho_arquivo_ok.toNat +
         (finalize_results nome tamanho data ext_is_pdf size_pos statuses page_text).tamanho_pagina_ok.toNat +
         (finalize_results nome tamanho data ext_is_pdf size_pos statuses page_text).assinado.toNat +
         (finalize_results nome tamanho data ext_is_pdf size_pos statuses page_text).autenticidade_ok.toNat +
         (finalize_results nome tamanho data ext_is_pdf size_pos statuses page_text).pesquisavel.toNat) := by
  rfl

/-- Claim C4: `_status_from_cell_html` is total on optional strings and
classifies by markers in the lowercased HTML: any failure marker forces
`False` even alongside a success marker, a success marker alone gives
`True`, and no marker at all gives `None`. -/
theorem status_from_cell_html_classification (cell_html : Option String) :
    status_from_cell_html cell_html =
      (if failure_markers.any (fun m => str_contains (py_lower (cell_html.getD "")) m) then
        some false
       else if success_markers.any (fun m => str_contains (py_lower (cell_html.getD "")) m) then
        some true
       else none) := by
  unfold status_from_cell_html
  cases hS : success_markers.any (fun m => str_contains (py_lower (cell_html.getD "")) m) <;>
    cases hF : failure_markers.any (fun m => str_contains (py_lower (cell_html.getD "")) m) <;>
      simp [hS, hF]

/-- Claim C5: the exception path of `validate_pdf_with_tcees` returns an
`'ERRO'` record with zero score, all eight check booleans false, and an
`erro_codigo` chosen by the first matching network marker in the uppercased
exception text, defaulting to `TCEES_VALIDATION_ERROR`. -/
theorem error_results_spec (nome err_text : String) :
    (error_results nome err_text).resultado_final = "ERRO" ∧
    (error_results nome err_text).pontuacao = 0 ∧
    ((error_results nome err_text).extensao_valida = false ∧
     (error_results nome err_text).sem_senha = false ∧
     (error_results nome err_text).tamanho_arquivo_ok = false ∧
     (error_results nome err_text).tamanho_pagina_ok = false ∧
     (error_results nome err_text).assinado = false ∧
     (error_results nome err_text).autenticidade_ok = false ∧
     (error_results nome err_text).integridade_ok = false ∧
     (error_results nome err_text).pesquisavel = false) ∧
    (error_results nome err_text).erro_codigo =
      (if str_contains (py_upper err_text) "ERR_TUNNEL_CONNECTION_FAILED" then
        "TCEES_NETWORK_BLOCKED"
       else if str_contains (py_upper err_text) "ERR_NAME_NOT_RESOLVED" then
        "TCEES_DNS_ERROR"
       else if str_contains (py_upper err_text) "ERR_CONNECTION_TIMED_OUT" ||
               str_contains (py_upper err_text) "TIMEOUT" then
        "TCEES_TIMEOUT"
       else if str_contains (py_upper err_text) "ERR_CONNECTION_REFUSED" then
        "TCEES_CONNECTION_REFUSED"
       else if str_contains (py_upper err_text) "ERR_CONNECTION_CLOSED" then
        "TCEES_CONNECTION_CLOSED"
       else "TCEES_VALIDATION_ERROR") := by
  unfold error_results friendly_network_error
  split_ifs <;> simp_all

/-- Claim C6: `POST /validate` answers HTTP 401 with `erro_codigo`
`AUTH_ERROR` iff the configured secret is non-empty and the request's
`X-API-Secret` header (possibly absent) differs from it; an empty secret
passes the authentication check for every request. -/
theorem auth_error_iff (api_secret : String) (header_secret : Option String)
    (file : Option UploadedFile) (max_file_mb : Nat) :
    (validate_route api_secret header_secret file max_file_mb =
        RouteResponse.reject 401 "AUTH_ERROR" ↔
      api_secret ≠ "" ∧ header_secret ≠ some api_secret) ∧
    (api_secret = "" → auth_ok api_secret header_secret = true) := by
  have hiff : auth_ok api_secret header_secret = false ↔
      (api_secret ≠ "" ∧ header_secret ≠ some api_secret) := by
    unfold auth_ok
    split_ifs with h
    · simp [h]
    · rcases header_secret with _ | s <;> simp [h]
  refine ⟨⟨fun hroute => ?_, fun h => ?_⟩, fun h => by simp [auth_ok, h]⟩
  · cases hA : auth_ok api_secret header_secret
    · exact hiff.mp hA
    · exfalso
      rcases file with _ | f <;> simp [validate_route, hA] at hroute <;>
        split_ifs at hroute <;> simp_all
  · have hA := hiff.mpr h
    simp [validate_route, hA]

/-- Claim C7: for an authenticated request carrying a `.pdf`-named file,
`POST /validate` answers HTTP 413 with `erro_codigo` `FILE_TOO_LARGE`
exactly when the file's size in megabytes strictly exceeds `MAX_FILE_MB`
(i.e. `size_bytes > max_file_mb * 2^20`); at or below the limit the file is
saved to a temporary path, passed to `validate_pdf_with_tcees`, and the
temporary file is deleted afterwards. -/
theorem file_too_large_iff (api_secret : String) (header_secret : Option String)
    (f : UploadedFile) (max_file_mb : Nat)
    (hauth : auth_ok api_secret header_secret = true)
    (hpdf : ".pdf".toList.isSuffixOf (py_lower f.filename).toList = true) :
    (validate_route api_secret header_secret (some f) max_file_mb =
        RouteResponse.reject 413 "FILE_TOO_LARGE" ↔
      max_file_mb * (1024 * 1024) < f.size_bytes) ∧
    (f.size_bytes ≤ max_file_mb * (1024 * 1024) →
      validate_route api_secret header_secret (some f) max_file_mb =
        RouteResponse.accept
          [ServiceEvent.save_temp, ServiceEvent.call_validator, ServiceEvent.delete_temp]) := by
  unfold validate_route file_too_large
  simp only [hauth, hpdf, Bool.not_true, Bool.not_false, if_neg, ite_false, ite_true]
  by_cases h : max_file_mb * (1024 * 1024) < f.size_bytes <;> simp [h] <;> omega

/-- Claim C7 witness: a 21 MiB upload is rejected with 413 FILE_TOO_LARGE
under the default 20 MB limit, and a 1 KiB upload reaches the
save/validate/delete sequence. -/
theorem file_too_large_iff_witness :
    validate_route "" none (some ⟨"a.pdf", 22020096⟩) 20 =
        RouteResponse.reject 413 "FILE_TOO_LARGE" ∧
    validate_route "" none (some ⟨"a.pdf", 1024⟩) 20 =
        RouteResponse.accept
          [ServiceEvent.save_temp, ServiceEvent.call_validator, ServiceEvent.delete_temp] :=
  ⟨(file_too_large_iff "" none ⟨"a.pdf", 22020096⟩ 20 (by decide) (by decide)).1.mpr
      (by decide),
   (file_too_large_iff "" none ⟨"a.pdf", 1024⟩ 20 (by decide) (by decide)).2 (by decide)⟩

/-- Claim C8 (amended): for every positive `max_workers`,
`validate_multiple_pdfs` validates at most the first three paths and
returns one result per validated path in input order, the same list for
any two positive worker counts; an empty input returns `[]` for every
`max_workers`, without constructing the executor; but a non-positive
`max_workers` on a non-empty input raises `ValueError` from the
`ThreadPoolExecutor` constructor instead of returning results. -/
theorem validate_multiple_pdfs_spec {α β : Type} (validator : α → β)
    (pdf_paths : List α) (w1 w2 : Int) (hw1 : 1 ≤ w1) (hw2 : 1 ≤ w2) :
    validate_multiple_pdfs validator pdf_paths w1 =
      Except.ok ((pdf_paths.take 3).map validator) ∧
    ((pdf_paths.take 3).map validator).length = min pdf_paths.length 3 ∧
    validate_multiple_pdfs validator pdf_paths w1 =
      validate_multiple_pdfs validator pdf_paths w2 ∧
    (∀ w : Int, validate_multiple_pdfs validator ([] : List α) w = Except.ok []) ∧
    (pdf_paths ≠ [] → validate_multiple_pdfs validator pdf_paths 0 =
      Except.error "max_workers must be greater than 0") := by
  unfold validate_multiple_pdfs
  rcases pdf_paths with _ | ⟨a, rest⟩
  · simp
  · have hlen : 1 ≤ ((a :: rest).take 3).length := by
      simp [List.length_take]
    have hmin1 : ¬ min w1 (((a :: rest).take 3).length : Int) ≤ 0 := by omega
    have hmin2 : ¬ min w2 (((a :: rest).take 3).length : Int) ≤ 0 := by omega
    have hmin0 : min (0 : Int) (((a :: rest).take 3).length : Int) ≤ 0 := by omega
    refine ⟨?_, ?_, ?_, ?_, fun _ => ?_⟩
    · simp
      omega
    · simp [List.length_take]
      omega
    · simp
      split_ifs <;> first | rfl | omega
    · intro w
      simp
    · simp [hmin0]

/-- Claim C8 (amended) witness: four paths with 3 workers validate the
first three in order; the empty input returns `[]`; one path with 0 workers
raises. -/
theorem validate_multiple_pdfs_spec_witness :
    validate_multiple_pdfs (fun p : String => p) ["a", "b", "c", "d"] 3 =
      Except.ok ["a", "b", "c"] ∧
    validate_multiple_pdfs (fun p : String => p) ([] : List String) 5 = Except.ok [] ∧
    validate_multiple_pdfs (fun p : String => p) ["a"] 0 =
      Except.error "max_workers must be greater than 0" := by
  refine ⟨?_, ?_, ?_⟩
  · have h := (validate_multiple_pdfs_spec (fun p : String => p) ["a", "b", "c", "d"]
      3 7 (by decide) (by decide)).1
    simpa using h
  · exact (validate_multiple_pdfs_spec (fun p : String => p) ["x"]
      3 3 (by decide) (by decide)).2.2.2.1 5
  · exact (validate_multiple_pdfs_spec (fun p : String => p) ["a"]
      3 3 (by decide) (by decide)).2.2.2.2 (by decide)

/-- Claim C8 as stated is false: on the non-empty input `["a.pdf"]` with
`max_workers = 0`, the source reaches
`ThreadPoolExecutor(max_workers=min(0, 1))`, whose constructor raises
`ValueError` before any validation, so no result list — in particular not
the claimed one-result-per-path list — is returned. -/
theorem validate_multiple_pdfs_zero_workers_raises :
    validate_multiple_pdfs (fun p : String => p) ["a.pdf"] 0 =
      Except.error "max_workers must be greater than 0" ∧
    validate_multiple_pdfs (fun p : String => p) ["a.pdf"] 0 ≠
      Except.ok ["a.pdf"] := by
  refine ⟨rfl, ?_⟩
  intro h
  rw [show validate_multiple_pdfs (fun p : String => p) ["a.pdf"] 0 =
    Except.error "max_workers must be greater than 0" from rfl] at h
  exact Except.noConfusion h

/-- Claim C2: for a status list of length at least 8,
`_apply_statuses_to_results` sets each boolean field positionally to
`status is True` — index 0 extension, 1 password, 2 file size, 3 page size,
4 signature, 5 authenticity/integrity (written into both fields),
6 searchability — sets `resultado_final` from index 7 (`VALIDADO` on True,
`NÃO VALIDADO` on False, otherwise `VALIDADO` exactly when all seven base
checks hold), and returns True; for a shorter list, or for `None`, it
returns False and leaves the record unchanged. -/
theorem apply_statuses_positional (r : Results) (sts : List Status) (page_text : String)
    (b : Bool) (out : Results)
    (heq : apply_statuses_to_results r (some sts) page_text = (b, out)) :
    (8 ≤ sts.length →
      b = true ∧
      out.extensao_valida = decide (sts.getD 0 none = some true) ∧
      out.sem_senha = decide (sts.getD 1 none = some true) ∧
      out.tamanho_arquivo_ok = decide (sts.getD 2 none = some true) ∧
      out.tamanho_pagina_ok = decide (sts.getD 3 none = some true) ∧
      out.assinado = decide (sts.getD 4 none = some true) ∧
      out.autenticidade_ok = decide (sts.getD 5 none = some true) ∧
      out.integridade_ok = decide (sts.getD 5 none = some true) ∧
      out.pesquisavel = decide (sts.getD 6 none = some true) ∧
      out.resultado_final =
        (if sts.getD 7 none = some true then "VALIDADO"
         else if sts.getD 7 none = some false then "NÃO VALIDADO"
         else if out.extensao_valida && out.sem_senha && out.tamanho_arquivo_ok &&
                 out.tamanho_pagina_ok && out.assinado && out.autenticidade_ok &&
                 out.pesquisavel then "VALIDADO" else "NÃO VALIDADO")) ∧
    (sts.length < 8 → b = false ∧ out = r) ∧
    apply_statuses_to_results r none page_text = (false, r) := by
  refine ⟨?_, ?_, rfl⟩
  · intro h
    have hlen : ¬ sts.length < 8 := by omega
    simp only [apply_statuses_to_results, if_neg hlen] at heq
    obtain ⟨hb, hout⟩ := Prod.mk.inj heq
    subst hb
    subst hout
    refine ⟨rfl, ?_⟩
    split
    · refine ⟨by simp [status_is_true_eq], by simp [status_is_true_eq],
        by simp [status_is_true_eq], by simp [status_is_true_eq],
        by simp [status_is_true_eq], by simp [status_is_true_eq],
        by simp [status_is_true_eq], by simp [status_is_true_eq], ?_⟩
      rcases h7 : sts.getD 7 none with _ | b7
      · simp [h7, status_is_true_eq]
      · cases b7 <;> simp [h7, status_is_true_eq]
    · refine ⟨by simp [status_is_true_eq], by simp [status_is_true_eq],
        by simp [status_is_true_eq], by simp [status_is_true_eq],
        by simp [status_is_true_eq], by simp [status_is_true_eq],
        by simp [status_is_true_eq], by simp [status_is_true_eq], ?_⟩
      rcases h7 : sts.getD 7 none with _ | b7
      · simp [h7, status_is_true_eq]
      · cases b7 <;> simp [h7, status_is_true_eq]
  · intro h
    simp only [apply_statuses_to_results, if_pos h] at heq
    obtain ⟨hb, hout⟩ := Prod.mk.inj heq
    exact ⟨hb.symm, hout.symm⟩

/-- Claim C2 witness: a fully parsed row of eight statuses is applied with
flag True, and a one-element list is rejected leaving the record as-is. -/
theorem apply_statuses_positional_witness :
    (apply_statuses_to_results (init_results "a" 0 "d") (some ok_list) "").1 = true ∧
    apply_statuses_to_results (init_results "a" 0 "d") (some [some true]) "" =
      (false, init_results "a" 0 "d") := by
  constructor
  · exact ((apply_statuses_positional (init_results "a" 0 "d") ok_list ""
      (apply_statuses_to_results (init_results "a" 0 "d") (some ok_list) "").1
      (apply_statuses_to_results (init_results "a" 0 "d") (some ok_list) "").2
      rfl).1 (by decide)).1
  · have h := (apply_statuses_positional (init_results "a" 0 "d") [some true] ""
      (apply_statuses_to_results (init_results "a" 0 "d") (some [some true]) "").1
      (apply_statuses_to_results (init_results "a" 0 "d") (some [some true]) "").2
      rfl).2.1 (by decide)
    rw [Prod.ext_iff]
    exact ⟨h.1, h.2⟩

/-- Claim C9: in every record produced by a successful status parse,
`autenticidade_ok` equals `integridade_ok` (both derive from the status at
index 5) and `numero_assinaturas` is 1 when `assinado` holds and 0
otherwise. -/
theorem autenticidade_equals_integridade (nome : String) (tamanho : Nat) (data : String)
    (ext_is_pdf size_pos : Bool) (statuses : Option (List Status)) (page_text : String)
    (hparsed :
      (apply_statuses_to_results (init_results nome tamanho data) statuses page_text).1 = true) :
    (finalize_results nome tamanho data ext_is_pdf size_pos statuses page_text).autenticidade_ok =
      (finalize_results nome tamanho data ext_is_pdf size_pos statuses page_text).integridade_ok ∧
    (finalize_results nome tamanho data ext_is_pdf size_pos statuses page_text).numero_assinaturas =
      (if (finalize_results nome tamanho data ext_is_pdf size_pos statuses page_text).assinado
       then 1 else 0) := by
  rcases statuses with _ | sts
  · simp [apply_statuses_to_results] at hparsed
  · by_cases hlen : sts.length < 8
    · simp [apply_statuses_to_results, hlen] at hparsed
    · simp only [finalize_results, apply_statuses_to_results, if_neg hlen] at hparsed ⊢
      split <;> (try split) <;> simp

/-- Claim C9 witness at a concrete fully resolved row. -/
theorem autenticidade_equals_integridade_witness :
    (finalize_results "a" 0 "d" true true (some ok_list) "").autenticidade_ok =
      (finalize_results "a" 0 "d" true true (some ok_list) "").integridade_ok ∧
    (finalize_results "a" 0 "d" true true (some ok_list) "").numero_assinaturas =
      (if (finalize_results "a" 0 "d" true true (some ok_list) "").assinado then 1 else 0) :=
  autenticidade_equals_integridade "a" 0 "d" true true (some ok_list) "" (by decide)

theorem pontuacao_of_mem (n : Nat) (h : n ≤ 7) :
    pontuacao_of n ∈ [0, 14, 28, 42, 57, 71, 85, 100] := by
  interval_cases n <;> decide

theorem pontuacao_of_le_100 (n : Nat) (h : n ≤ 7) : pontuacao_of n ≤ 100 := by
  unfold pontuacao_of
  omega

theorem apply_resultado_cases (r : Results) (s : Option (List Status)) (pt : String) :
    (apply_statuses_to_results r s pt).2.resultado_final = "VALIDADO" ∨
    (apply_statuses_to_results r s pt).2.resultado_final = "NÃO VALIDADO" ∨
    (apply_statuses_to_results r s pt).2.resultado_final = r.resultado_final := by
  rcases s with _ | sts
  · simp [apply_statuses_to_results]
  · by_cases hlen : sts.length < 8
    · simp [apply_statuses_to_results, hlen]
    · simp only [apply_statuses_to_results, if_neg hlen]
      split
      · rcases h7 : sts.getD 7 none with _ | b7
        · simp only [h7]
          split_ifs <;> simp
        · cases b7 <;> simp [h7]
      · rcases h7 : sts.getD 7 none with _ | b7
        · simp only [h7]
          split_ifs <;> simp
        · cases b7 <;> simp [h7]

/-- Claim C10: every record returned by `validate_pdf_with_tcees` — normal
path with or without a successful parse, file-not-found path, exception
path — carries a `resultado_final` among VALIDADO, NÃO VALIDADO and ERRO
and a `pontuacao` in {0, 14, 28, 42, 57, 71, 85, 100} (hence between 0 and
100); the file-not-found and exception paths always score 0. -/
theorem resultado_and_pontuacao_ranges (nome path data err_text : String) (tamanho : Nat)
    (ext_is_pdf size_pos : Bool) (statuses : Option (List Status)) (page_text : String) :
    ((finalize_results nome tamanho data ext_is_pdf size_pos statuses page_text).resultado_final =
        "VALIDADO" ∨
     (finalize_results nome tamanho data ext_is_pdf size_pos statuses page_text).resultado_final =
        "NÃO VALIDADO" ∨
     (finalize_results nome tamanho data ext_is_pdf size_pos statuses page_text).resultado_final =
        "ERRO") ∧
    (finalize_results nome tamanho data ext_is_pdf size_pos statuses page_text).pontuacao ∈
      [0, 14, 28, 42, 57, 71, 85, 100] ∧
    (finalize_results nome tamanho data ext_is_pdf size_pos statuses page_text).pontuacao ≤ 100 ∧
    ((not_found_results nome path).resultado_final = "ERRO" ∧
     (not_found_results nome path).pontuacao = 0) ∧
    ((error_results nome err_text).resultado_final = "ERRO" ∧
     (error_results nome err_text).pontuacao = 0) := by
  refine ⟨?_, ?_, ?_, ⟨rfl, rfl⟩, ⟨rfl, rfl⟩⟩
  · have hres := apply_resultado_cases (init_results nome tamanho data) statuses page_text
    simp only [finalize_results]
    cases hP : (apply_statuses_to_results (init_results nome tamanho data) statuses page_text).1
    · simp [hP]
    · simp only [hP, if_pos]
      rcases hres with h | h | h
      · exact Or.inl h
      · exact Or.inr (Or.inl h)
      · exact Or.inr (Or.inr h)
  · have hle := campos_ok_le_seven
      (if (apply_statuses_to_results (init_results nome tamanho data) statuses page_text).1 then
        (apply_statuses_to_results (init_results nome tamanho data) statuses page_text).2
       else
        { (apply_statuses_to_results (init_results nome tamanho data) statuses page_text).2 with
          extensao_valida := ext_is_pdf
          tamanho_arquivo_ok := size_pos
          mensagem_erro := "Não foi possível interpretar a resposta do TCEES."
          resultado_final := "ERRO" })
    exact pontuacao_of_mem _ hle
  · have hle := campos_ok_le_seven
      (if (apply_statuses_to_results (init_results nome tamanho data) statuses page_text).1 then
        (apply_statuses_to_results (init_results nome tamanho data) statuses page_text).2
       else
        { (apply_statuses_to_results (init_results nome tamanho data) statuses page_text).2 with
          extensao_valida := ext_is_pdf
          tamanho_arquivo_ok := size_pos
          mensagem_erro := "Não foi possível interpretar a resposta do TCEES."
          resultado_final := "ERRO" })
    exact pontuacao_of_le_100 _ hle

theorem poll_loop_count_le (extract : Nat → Option (List Status)) :
    ∀ (fuel max_wait waited : Nat) (st : PollState),
      (poll_loop extract fuel max_wait waited st).2 ≤ (max_wait - waited + 1) / 2 := by
  intro fuel
  induction fuel with
  | zero => intro max_wait waited st; simp [poll_loop]
  | succ n ih =>
    intro max_wait waited st
    simp only [poll_loop]
    split
    · rename_i hlt
      split
      · simp only
        omega
      · have hrest := ih max_wait (waited + 2) (poll_step (extract (waited / 2)) st).1
        simp only
        omega
    · simp

/-- Claim C3 (amended): the polling loop performs at most
⌈max_wait / poll_interval⌉ polls — 28 in normal mode, 15 in quick mode —
and a poll breaks the loop exactly when it parses to a list of length at
least 8 with at least 6 resolved statuses whose signature equals the one
recorded by the most recent previous such qualifying poll; a non-qualifying
poll in between neither breaks the loop nor changes the tracked state, and
the breaking poll's list is the one kept in `parsed_statuses`. -/
theorem poll_loop_bound_and_stability (extract : Nat → Option (List Status))
    (quick_mode : Bool) :
    (run_poll_loop extract quick_mode).2 ≤ (if quick_mode then 15 else 28) ∧
    (∀ (statuses : Option (List Status)) (st : PollState),
      (poll_step statuses st).2 = true ↔
        (∃ sts, statuses = some sts ∧ 8 ≤ sts.length ∧ 6 ≤ resolved_count sts ∧
          statuses_signature sts = st.last_signature)) ∧
    (∀ (sts : List Status) (st : PollState), poll_qualifies (some sts) = true →
      (poll_step (some sts) st).1.last_signature = statuses_signature sts ∧
      (poll_step (some sts) st).1.parsed_statuses = some sts) ∧
    (∀ (statuses : Option (List Status)) (st : PollState),
      poll_qualifies statuses = false → poll_step statuses st = (st, false)) := by
  refine ⟨?_, ?_, ?_, ?_⟩
  · have h := poll_loop_count_le extract (if quick_mode then 30 else 55)
      (if quick_mode then 30 else 55) 0 init_poll_state
    cases quick_mode <;> simpa [run_poll_loop] using h
  · intro statuses st
    rcases statuses with _ | sts
    · simp [poll_step]
    · by_cases hlen : sts.length < 8
      · simp only [poll_step, if_pos hlen]
        constructor
        · intro h
          simp at h
        · rintro ⟨sts2, heq, h8, _⟩
          cases heq
          omega
      · by_cases hres : resolved_count sts < 6
        · simp only [poll_step, if_neg hlen, if_pos hres]
          constructor
          · intro h
            simp at h
          · rintro ⟨sts2, heq, _, h6, _⟩
            cases heq
            omega
        · simp only [poll_step, if_neg hlen, if_neg hres]
          by_cases hsig : statuses_signature sts = st.last_signature
          · simp only [if_pos hsig]
            constructor
            · intro _
              exact ⟨sts, rfl, by omega, by omega, hsig⟩
            · intro _
              simp
          · simp only [if_neg hsig]
            constructor
            · intro h
              simp at h
            · rintro ⟨sts2, heq, _, _, hsig2⟩
              cases heq
              exact absurd hsig2 hsig
  · intro sts st hq
    simp only [poll_qualifies, Bool.and_eq_true, decide_eq_true_eq] at hq
    have hlen : ¬ sts.length < 8 := by omega
    have hres : ¬ resolved_count sts < 6 := by omega
    simp only [poll_step, if_neg hlen, if_neg hres]
    by_cases hsig : statuses_signature sts = st.last_signature
    · simp [if_pos hsig, hsig]
    · simp [if_neg hsig]
  · intro statuses st hq
    rcases statuses with _ | sts
    · rfl
    · simp only [poll_qualifies, Bool.and_eq_false_iff] at hq
      rcases hq with hq | hq
      · have hlen : sts.length < 8 := by
          by_contra hc
          simp [Nat.le_of_not_lt hc] at hq
        simp [poll_step, hlen]
      · have hres : resolved_count sts < 6 := by
          by_contra hc
          simp [Nat.le_of_not_lt hc] at hq
        have hlen := Nat.lt_or_ge sts.length 8
        rcases hlen with hlen | hlen
        · simp [poll_step, hlen]
        · have : ¬ sts.length < 8 := by omega
          simp [poll_step, this, hres]

/-- Claim C3 (amended) witness: the bound instantiated in normal mode with
an extractor that never parses; a break at a matching qualifying poll; and
a no-op step on a poll that parses nothing. -/
theorem poll_loop_bound_and_stability_witness :
    (run_poll_loop (fun _ => none) false).2 ≤ 28 ∧
    (poll_step (some ok_list)
      { stable_count := 0, last_signature := statuses_signature ok_list,
        parsed_statuses := none }).2 = true ∧
    poll_step none init_poll_state = (init_poll_state, false) := by
  refine ⟨?_, ?_, ?_⟩
  · simpa using (poll_loop_bound_and_stability (fun _ => none) false).1
  · exact ((poll_loop_bound_and_stability (fun _ => none) false).2.1 (some ok_list) _).mpr
      ⟨ok_list, rfl, by decide, by decide, rfl⟩
  · exact (poll_loop_bound_and_stability (fun _ => none) false).2.2.2 none init_poll_state
      (by decide)

/-- Claim C3 as stated is false: with polls (fully resolved row, nothing,
the same row again) the loop exits early — 3 polls instead of 28 — and
keeps that row, although no two *consecutive* polls both yield a qualifying
list: the middle poll parses nothing. -/
theorem poll_loop_nonconsecutive_early_exit :
    (run_poll_loop cex_extract false).2 = 3 ∧
    (run_poll_loop cex_extract false).2 < 28 ∧
    (run_poll_loop cex_extract false).1.parsed_statuses = some ok_list ∧
    poll_qualifies (cex_extract 0) = true ∧
    poll_qualifies (cex_extract 1) = false ∧
    poll_qualifies (cex_extract 2) = true ∧
    ¬(poll_qualifies (cex_extract 0) = true ∧ poll_qualifies (cex_extract 1) = true) ∧
    ¬(poll_qualifies (cex_extract 1) = true ∧ poll_qualifies (cex_extract 2) = true) := by
  decide

/-- Claim C6 witness: a wrong header against a configured secret is
answered 401 AUTH_ERROR, and the empty secret passes authentication. -/
theorem auth_error_iff_witness :
    validate_route "s" (some "t") none 20 = RouteResponse.reject 401 "AUTH_ERROR" ∧
    auth_ok "" none = true :=
  ⟨(auth_error_iff "s" (some "t") none 20).1.mpr (by decide),
   (auth_error_iff "" none none 20).2 rfl⟩
